import Mathlib

set_option maxRecDepth 100000

/-!
Shallow embedding of the quiz-generation core of `src/streamlit_app.py`:
JSON normalisation (`format_response_to_json`), the response validation in
`generate_quiz`, difficulty descriptions and prompt construction, the
submit transition of the quiz session (`main`, submit branch), grading of
a submitted session, and the derived score/rate statistics.

Python's `json.loads` is modelled by an executable recursive-descent
parser `json_loads` over a `Json` value type, covering the JSON fragment
relevant here: objects, arrays, strings with the single-character
escapes, integer numbers, and the literals `true`/`false`/`null`.
Unicode escapes, floats and Python's non-standard `NaN`/`Infinity`
extensions are outside the model; a parse failure is `none` (a raised
`json.JSONDecodeError`).  Python exceptions from arithmetic
(`ZeroDivisionError`) are embedded with `Option`, `none` standing for
the raised exception.  Real-valued arithmetic is idealised over `ℚ`.
-/

inductive Json where
  | null : Json
  | bool (b : Bool) : Json
  | num (n : Int) : Json
  | str (s : String) : Json
  | arr (elems : List Json) : Json
  | obj (fields : List (String × Json)) : Json

abbrev Chars := List Char

/-- The character `{`. -/
def braceOpen : Char := Char.ofNat 123

/-- The character `}`. -/
def braceClose : Char := Char.ofNat 125

/-- JSON insignificant whitespace (space, tab, line feed, carriage return). -/
def isWsChar (c : Char) : Bool := c = ' ' || c = '\t' || c = '\n' || c = '\r'

def skipWs (cs : Chars) : Chars := cs.dropWhile isWsChar

/-- Single-character JSON string escapes (the `\uXXXX` form is outside the model). -/
def escChar (e : Char) : Option Char :=
  if e = '"' then some '"'
  else if e = '\\' then some '\\'
  else if e = '/' then some '/'
  else if e = 'b' then some (Char.ofNat 8)
  else if e = 'f' then some (Char.ofNat 12)
  else if e = 'n' then some (Char.ofNat 10)
  else if e = 'r' then some (Char.ofNat 13)
  else if e = 't' then some (Char.ofNat 9)
  else none

/-- Parse the body of a JSON string after its opening quote, returning the
decoded characters and the input after the closing quote.  Unescaped control
characters are rejected, as in strict-mode `json.loads`. -/
def parseStringBody : Chars → Option (Chars × Chars)
  | [] => none
  | c :: rest =>
    if c = '"' then some ([], rest)
    else if c = '\\' then
      match rest with
      | [] => none
      | e :: rest2 =>
        match escChar e with
        | none => none
        | some ec =>
          match parseStringBody rest2 with
          | none => none
          | some (s, r) => some (ec :: s, r)
    else if c.toNat < 32 then none
    else
      match parseStringBody rest with
      | none => none
      | some (s, r) => some (c :: s, r)

def digitsToNat (ds : Chars) : Nat := ds.foldl (fun a c => 10 * a + (c.toNat - 48)) 0

/-- A digit run continued by `.`, `e` or `E` would be a float literal,
which is outside the integer fragment modelled here. -/
def startsFloatTail : Chars → Bool
  | e :: _ => e = '.' || e = 'e' || e = 'E'
  | [] => false

/-- Parse a JSON integer literal: optional minus sign, then digits with no
redundant leading zero, not continued into a float. -/
def parseNumber (cs : Chars) : Option (Json × Chars) :=
  let signSplit : Bool × Chars :=
    match cs with
    | c :: r => if c = '-' then (true, r) else (false, cs)
    | [] => (false, cs)
  let cs1 := signSplit.2
  let ds := cs1.takeWhile Char.isDigit
  let rest := cs1.dropWhile Char.isDigit
  match ds with
  | [] => none
  | d :: tail =>
    if d = '0' && !tail.isEmpty then none
    else if startsFloatTail rest then none
    else
      let v : Int := Int.ofNat (digitsToNat ds)
      some (Json.num (if signSplit.1 then -v else v), rest)

mutual

/-- One JSON value (with surrounding whitespace skipped in front), fueled. -/
def parseValue : Nat → Chars → Option (Json × Chars)
  | 0, _ => none
  | fuel + 1, cs0 =>
    let cs := skipWs cs0
    if ("true".data).isPrefixOf cs then some (Json.bool true, cs.drop 4)
    else if ("false".data).isPrefixOf cs then some (Json.bool false, cs.drop 5)
    else if ("null".data).isPrefixOf cs then some (Json.null, cs.drop 4)
    else
      match cs with
      | [] => none
      | c :: rest =>
        if c = '"' then
          match parseStringBody rest with
          | some (s, r) => some (Json.str (String.mk s), r)
          | none => none
        else if c = braceOpen then
          match skipWs rest with
          | d :: rest2 =>
            if d = braceClose then some (Json.obj [], rest2)
            else parseMembers fuel (d :: rest2)
          | [] => none
        else if c = '[' then
          match skipWs rest with
          | d :: rest2 =>
            if d = ']' then some (Json.arr [], rest2)
            else parseElems fuel (d :: rest2)
          | [] => none
        else parseNumber cs

/-- One or more `"key": value` members of an object, up to the closing brace. -/
def parseMembers : Nat → Chars → Option (Json × Chars)
  | 0, _ => none
  | fuel + 1, cs =>
    match cs with
    | c :: rest =>
      if c = '"' then
        match parseStringBody rest with
        | some (key, r1) =>
          match skipWs r1 with
          | d :: r2 =>
            if d = ':' then
              match parseValue fuel r2 with
              | some (v, r3) =>
                match skipWs r3 with
                | e :: r4 =>
                  if e = ',' then
                    match parseMembers fuel (skipWs r4) with
                    | some (Json.obj fs, r5) => some (Json.obj ((String.mk key, v) :: fs), r5)
                    | _ => none
                  else if e = braceClose then some (Json.obj [(String.mk key, v)], r4)
                  else none
                | [] => none
              | none => none
            else none
          | [] => none
        | none => none
      else none
    | [] => none

/-- One or more elements of an array, up to the closing bracket. -/
def parseElems : Nat → Chars → Option (Json × Chars)
  | 0, _ => none
  | fuel + 1, cs =>
    match parseValue fuel cs with
    | some (v, r1) =>
      match skipWs r1 with
      | e :: r2 =>
        if e = ',' then
          match parseElems fuel r2 with
          | some (Json.arr vs, r3) => some (Json.arr (v :: vs), r3)
          | _ => none
        else if e = ']' then some (Json.arr [v], r2)
        else none
      | [] => none
    | none => none

end

/-- Model of `json.loads`: parse one value and require that only
whitespace remains (otherwise Python raises "Extra data"). -/
def json_loads (s : String) : Option Json :=
  match parseValue (2 * s.data.length + 2) s.data with
  | some (v, rest) => if skipWs rest = [] then some v else none
  | none => none

/-- Model of `re.search(r'\x7b.*\x7d', raw_response, re.DOTALL)`: the span
from the first open brace through the greedy last close brace, or `none`
when no such span exists. -/
def extractBrace (s : String) : Option String :=
  let t := s.data.dropWhile (fun c => c != braceOpen)
  let r := t.reverse.dropWhile (fun c => c != braceClose)
  if r.isEmpty then none else some (String.mk r.reverse)

/-- `format_response_to_json` (src/streamlit_app.py lines 24-39): try a
strict parse of the whole text; on failure extract the brace-delimited
span and parse that; any failure (including "No JSON-like content found
in response") is caught and surfaced as `None`. -/
def format_response_to_json (raw_response : String) : Option Json :=
  match json_loads raw_response with
  | some j => some j
  | none =>
    match extractBrace raw_response with
    | some sub => json_loads sub
    | none => none

/-- `isinstance(quiz_data, dict)`. -/
def isDict : Json → Bool
  | Json.obj _ => true
  | _ => false

/-- `"questions" in quiz_data` (membership in a dict). -/
def dictContains (j : Json) (key : String) : Bool :=
  match j with
  | Json.obj fs => fs.any (fun kv => kv.1 == key)
  | _ => false

/-- `quiz_data[key]` lookup on a JSON object. -/
def jsonGet (j : Json) (key : String) : Option Json :=
  match j with
  | Json.obj fs =>
    match fs.find? (fun kv => kv.1 == key) with
    | some kv => some kv.2
    | none => none
  | _ => none

/-- Whether a JSON value is a sequence (a JSON array). -/
def isSeq : Json → Bool
  | Json.arr _ => true
  | _ => false

/-- The tail of `generate_quiz` (src/streamlit_app.py lines 85-96) applied
to the model's raw reply: normalise it, then reject `None`, non-dict
values and dicts without a `"questions"` key; otherwise return the parsed
value unchanged. -/
def generate_quiz_from_response (raw_content : String) : Option Json :=
  match format_response_to_json raw_content with
  | none => none
  | some quiz_data =>
    if !(isDict quiz_data) || !(dictContains quiz_data "questions") then none
    else some quiz_data

/-- `get_difficulty_description` (lines 41-47): a dict `.get` with default `""`. -/
def get_difficulty_description (difficulty : String) : String :=
  if difficulty = "easy" then "basic concepts and straightforward questions suitable for beginners"
  else if difficulty = "medium" then "intermediate concepts with some complexity, requiring good understanding"
  else if difficulty = "hard" then "advanced concepts with complex scenarios, requiring deep understanding and critical thinking"
  else ""

def promptPart1 : String := "Generate a "

def promptPart2 : String := "-question multiple-choice quiz on the topic: "

def promptPart3 : String := ".\n        The questions should be at "

def promptPart4 : String := " difficulty level, meaning "

def promptPart5 : String := ".\n        \n        For EASY questions: Focus on basic definitions, simple concepts, and straightforward applications.\n        For MEDIUM questions: Include scenario-based problems, relationships between concepts, and moderate complexity.\n        For HARD questions: Incorporate complex scenarios, advanced applications, and questions requiring synthesis of multiple concepts.\n        \n        The response MUST be a valid JSON object in EXACTLY this format:\n        \x7b\n            \"questions\": [\n                \x7b\n                    \"question\": \"Question text here\",\n                    \"options\": [\"A) option1\", \"B) option2\", \"C) option3\", \"D) option4\"],\n                    \"correct_answer\": \"A\",\n                    \"explanation\": \"Brief explanation of why this answer is correct\"\n                \x7d\n            ]\n        \x7d"

/-- `difficulty.upper()`: upper-casing, character by character (the
difficulty values here are ASCII, where Python and Lean agree). -/
def pyUpper (s : String) : String := String.mk (s.data.map Char.toUpper)

/-- The prompt f-string of `generate_quiz` (lines 55-72), as a function of
topic, question count and difficulty. -/
def build_prompt (topic : String) (number : Nat) (difficulty : String) : String :=
  promptPart1 ++ toString number ++ promptPart2 ++ topic ++ promptPart3
    ++ pyUpper difficulty ++ promptPart4 ++ get_difficulty_description difficulty ++ promptPart5

/-- One quiz question as consumed by the results loop (`q["question"]`,
`q["options"]`, `q["correct_answer"]`, optional `q["explanation"]`). -/
structure Question where
  question : String
  options : List String
  correct_answer : String
  explanation : Option String
deriving DecidableEq

/-- The session state the submit/results code manipulates:
`st.session_state.quiz["questions"]`, `user_answers` (a dict from question
index to answer letter, modelled as an association list), `quiz_submitted`,
`start_time` and `total_time`. -/
structure Session where
  questions : List Question
  user_answers : List (Nat × String)
  quiz_submitted : Bool
  start_time : ℚ
  total_time : Option ℚ
deriving DecidableEq

/-- The submit branch (lines 218-223): if fewer answers than questions are
recorded, warn (`true` in the second component) and leave the session
untouched; otherwise set `quiz_submitted` and record `total_time` as
`now - start_time`. -/
def submitQuiz (s : Session) (now : ℚ) : Session × Bool :=
  if s.user_answers.length < s.questions.length then (s, true)
  else ({ s with quiz_submitted := true, total_time := some (now - s.start_time) }, false)

/-- The results loop (lines 236-246) from index `i` on: compare
`user_answers.get(i, None)` with `q["correct_answer"]` for each question,
accumulating the `correct_answers` and `incorrect_answers` counters. -/
def gradeQuestions : Nat → List Question → List (Nat × String) → Nat × Nat
  | _, [], _ => (0, 0)
  | i, q :: qs, user_answers =>
    let rest := gradeQuestions (i + 1) qs user_answers
    if List.lookup i user_answers = some q.correct_answer then (rest.1 + 1, rest.2)
    else (rest.1, rest.2 + 1)

/-- Line 254: `score_percentage = (correct_answers / total_questions) * 100`,
with the `ZeroDivisionError` raised at `total_questions == 0` modelled as
`none`. -/
def score_percentage (correct_answers total_questions : Nat) : Option ℚ :=
  if (total_questions : ℚ) = 0 then none
  else some (((correct_answers : ℚ) / (total_questions : ℚ)) * 100)

/-- Line 255: `questions_per_minute = total_questions / (total_time / 60)`,
with the `ZeroDivisionError` raised when the divisor `total_time / 60` is
zero modelled as `none`. -/
def questions_per_minute (total_questions : Nat) (total_time : ℚ) : Option ℚ :=
  if total_time / 60 = 0 then none
  else some ((total_questions : ℚ) / (total_time / 60))

/-- C1: contrary to the claim, the Scorer/Reporter does not special-case a
zero `total_time`: line 255 divides by `total_time / 60` unconditionally, so
a zero-duration submission raises `ZeroDivisionError` (modelled as `none`)
instead of yielding a defined sentinel rate. -/
theorem questions_per_minute_zero_time_raises (n : Nat) :
    questions_per_minute n 0 = none := by
  simp [questions_per_minute]

/-- C2: contrary to the claim, line 254 divides `correct_answers` by
`total_questions` unconditionally, so a submitted quiz with zero questions
raises `ZeroDivisionError` (modelled as `none`) instead of producing a
defined score. -/
theorem score_percentage_zero_questions_raises (c : Nat) :
    score_percentage c 0 = none := by
  simp [score_percentage]

/-- C10: `get_difficulty_description` is total: any difficulty outside
easy/medium/hard falls through the dict `.get` to the default empty string
instead of raising. -/
theorem get_difficulty_description_total (d : String)
    (h1 : d ≠ "easy") (h2 : d ≠ "medium") (h3 : d ≠ "hard") :
    get_difficulty_description d = "" := by
  simp [get_difficulty_description, h1, h2, h3]

/-- Witness for `get_difficulty_description_total` at the unrecognized
difficulty `"expert"`. -/
theorem get_difficulty_description_total_witness :
    "expert" ≠ "easy" ∧ "expert" ≠ "medium" ∧ "expert" ≠ "hard"
      ∧ get_difficulty_description "expert" = "" :=
  ⟨by decide, by decide, by decide,
    get_difficulty_description_total "expert" (by decide) (by decide) (by decide)⟩

theorem gradeQuestions_fst_add_snd (i : Nat) (qs : List Question)
    (ans : List (Nat × String)) :
    (gradeQuestions i qs ans).1 + (gradeQuestions i qs ans).2 = qs.length := by
  induction qs generalizing i with
  | nil => simp [gradeQuestions]
  | cons q qs ih =>
    have h := ih (i + 1)
    simp only [gradeQuestions, List.length_cons]
    split <;> simp <;> omega

/-- C9: the results loop classifies every question index as exactly one of
correct or incorrect (a missing answer compares unequal and is counted
incorrect rather than raising), so the two counters sum to the number of
questions. -/
theorem grade_counters_sum_to_total (qs : List Question)
    (ans : List (Nat × String)) :
    (gradeQuestions 0 qs ans).1 + (gradeQuestions 0 qs ans).2 = qs.length :=
  gradeQuestions_fst_add_snd 0 qs ans

/-- C4 counterexample: the text `"5"` contains no brace-delimited span, yet
the normalizer does not fail: the initial strict `json.loads` succeeds on it
and the parsed number is returned instead of `None`. -/
theorem normalizer_accepts_braceless_json :
    format_response_to_json "5" = some (Json.num 5) ∧ extractBrace "5" = none :=
  ⟨rfl, rfl⟩

/-- C4 (amended): for any text on which the strict parse fails and which
contains no brace-delimited span, the normalizer returns the `None` sentinel
(the raised `ValueError` is caught at the function boundary). -/
theorem normalizer_none_when_no_parse_and_no_brace (s : String)
    (hp : json_loads s = none) (hb : extractBrace s = none) :
    format_response_to_json s = none := by
  unfold format_response_to_json
  rw [hp, hb]

/-- Witness for `normalizer_none_when_no_parse_and_no_brace` on a plain
prose reply. -/
theorem normalizer_none_when_no_parse_and_no_brace_witness :
    json_loads "Sorry, I cannot generate a quiz." = none
      ∧ extractBrace "Sorry, I cannot generate a quiz." = none
      ∧ format_response_to_json "Sorry, I cannot generate a quiz." = none :=
  ⟨rfl, rfl, normalizer_none_when_no_parse_and_no_brace _ rfl rfl⟩

/-- C3 counterexample: `\x7b"questions": 5\x7d` parses to a mapping whose
`"questions"` value is the number `5`, not a sequence; the claim's third
validation check fails, yet `generate_quiz` accepts the value and returns
it instead of the `None` sentinel. -/
theorem generate_quiz_accepts_nonsequence_questions :
    generate_quiz_from_response "\x7b\"questions\": 5\x7d"
        = some (Json.obj [("questions", Json.num 5)])
      ∧ jsonGet (Json.obj [("questions", Json.num 5)]) "questions"
          = some (Json.num 5)
      ∧ isSeq (Json.num 5) = false :=
  ⟨rfl, rfl, rfl⟩

/-- C3 (amended): once the normalizer obtains a parse, `generate_quiz`
performs exactly two validation checks — the parsed value is a mapping and
it contains a `"questions"` key; acceptance (returning the parsed value
unchanged) is equivalent to those two checks passing, and the value under
the `"questions"` key is never inspected. -/
theorem generate_quiz_validation_two_checks (raw : String) (j : Json)
    (h : format_response_to_json raw = some j) :
    generate_quiz_from_response raw = some j
      ↔ (isDict j = true ∧ dictContains j "questions" = true) := by
  unfold generate_quiz_from_response
  rw [h]
  by_cases h1 : isDict j <;> by_cases h2 : dictContains j "questions" <;>
    simp [h1, h2]

/-- Witness for `generate_quiz_validation_two_checks` on a well-formed
reply. -/
theorem generate_quiz_validation_two_checks_witness :
    generate_quiz_from_response "\x7b\"questions\": []\x7d"
        = some (Json.obj [("questions", Json.arr [])])
      ↔ (isDict (Json.obj [("questions", Json.arr [])]) = true
          ∧ dictContains (Json.obj [("questions", Json.arr [])]) "questions" = true) :=
  generate_quiz_validation_two_checks _ _ rfl

theorem dropWhile_append_all {p : Char → Bool} (a : Chars) {b : Chars}
    (h : ∀ c ∈ a, p c = true) :
    List.dropWhile p (a ++ b) = List.dropWhile p b := by
  induction a with
  | nil => rfl
  | cons x xs ih =>
    have hx : p x = true := h x (List.mem_cons_self x xs)
    simp only [List.cons_append, List.dropWhile_cons, hx, if_true]
    exact ih (fun c hc => h c (List.mem_cons_of_mem x hc))

/-- When the text is a brace-delimited core wrapped in prose with no open
brace before it and no close brace after it, the greedy regex span is
exactly the core. -/
theorem extractBrace_wrapped (pre post : String) (mid : Chars)
    (hpre : braceOpen ∉ pre.data) (hpost : braceClose ∉ post.data) :
    extractBrace (pre ++ String.mk (braceOpen :: (mid ++ [braceClose])) ++ post)
      = some (String.mk (braceOpen :: (mid ++ [braceClose]))) := by
  have hdata : (pre ++ String.mk (braceOpen :: (mid ++ [braceClose])) ++ post).data
      = pre.data ++ (braceOpen :: (mid ++ [braceClose] ++ post.data)) := by
    simp [String.data_append]
  unfold extractBrace
  rw [hdata]
  have hpre2 : ∀ c ∈ pre.data, (c != braceOpen) = true := by
    intro c hc
    have hne : c ≠ braceOpen := fun heq => hpre (heq ▸ hc)
    simpa using hne
  rw [dropWhile_append_all pre.data hpre2]
  have hopen : (braceOpen != braceOpen) = false := by simp
  simp only [List.dropWhile_cons, hopen, if_false, Bool.false_eq_true]
  have hrev : (braceOpen :: (mid ++ [braceClose] ++ post.data)).reverse
      = post.data.reverse ++ (braceClose :: (mid.reverse ++ [braceOpen])) := by
    simp
  rw [hrev]
  have hpost2 : ∀ c ∈ post.data.reverse, (c != braceClose) = true := by
    intro c hc
    rw [List.mem_reverse] at hc
    have hne : c ≠ braceClose := fun heq => hpost (heq ▸ hc)
    simpa using hne
  rw [dropWhile_append_all post.data.reverse hpost2]
  have hclose : (braceClose != braceClose) = false := by simp
  simp only [List.dropWhile_cons, hclose, if_false, Bool.false_eq_true]
  simp

/-- C5 counterexample: the valid JSON object `\x7b"q": 1\x7d` wrapped in the
prose `"Result: "` before and `" done\x7d"` after.  The greedy span runs to
the last `\x7d` of the trailing prose, its strict parse fails, and the
normalizer returns `None`, while parsing the embedded object alone
succeeds. -/
theorem brace_fallback_not_embedded_parse :
    json_loads "\x7b\"q\": 1\x7d" = some (Json.obj [("q", Json.num 1)])
      ∧ extractBrace "Result: \x7b\"q\": 1\x7d done\x7d"
          = some "\x7b\"q\": 1\x7d done\x7d"
      ∧ format_response_to_json "Result: \x7b\"q\": 1\x7d done\x7d" = none :=
  ⟨rfl, rfl, rfl⟩

/-- C5 (amended): for a valid JSON object wrapped in surrounding prose that
contains no `\x7b` before the object and no `\x7d` after it, the
brace-extraction fallback parses to the same value as strict JSON parsing
of the embedded object alone. -/
theorem brace_fallback_recovers_wrapped (pre post : String) (mid : Chars)
    (j : Json)
    (hpre : braceOpen ∉ pre.data) (hpost : braceClose ∉ post.data)
    (hfull : json_loads (pre ++ String.mk (braceOpen :: (mid ++ [braceClose])) ++ post) = none)
    (hcore : json_loads (String.mk (braceOpen :: (mid ++ [braceClose]))) = some j) :
    format_response_to_json (pre ++ String.mk (braceOpen :: (mid ++ [braceClose])) ++ post)
      = some j := by
  unfold format_response_to_json
  rw [hfull, extractBrace_wrapped pre post mid hpre hpost]
  exact hcore

/-- Witness for `brace_fallback_recovers_wrapped`: the spec scenario of a
quiz object wrapped in prose. -/
theorem brace_fallback_recovers_wrapped_witness :
    braceOpen ∉ ("Here you go:\n").data
      ∧ braceClose ∉ ("\nEnjoy!").data
      ∧ format_response_to_json
          ("Here you go:\n"
            ++ String.mk (braceOpen :: (("\"questions\": []").data ++ [braceClose]))
            ++ "\nEnjoy!")
          = some (Json.obj [("questions", Json.arr [])]) :=
  ⟨by decide, by decide,
    brace_fallback_recovers_wrapped _ _ _ _ (by decide) (by decide) rfl rfl⟩

theorem lookup_isSome_iff_mem (a : Nat) (l : List (Nat × String)) :
    (List.lookup a l).isSome = true ↔ a ∈ l.map Prod.fst := by
  induction l with
  | nil => simp [List.lookup]
  | cons kv t ih =>
    obtain ⟨k, v⟩ := kv
    by_cases hak : a = k
    · subst hak
      simp [List.lookup]
    · have hb : (a == k) = false := beq_false_of_ne hak
      simp [List.lookup, hb, ih, hak]

/-- In the app the `user_answers` dict only ever holds question indices as
keys (one radio widget per question, keyed by its index), so its keys are
distinct and in range.  Under that invariant, `len(user_answers) >=
len(questions)` holds exactly when every question index has a recorded
answer. -/
theorem answers_ge_iff_all_answered (ua : List (Nat × String)) (n : Nat)
    (hnodup : (ua.map Prod.fst).Nodup)
    (hrange : ∀ k ∈ ua.map Prod.fst, k < n) :
    (¬ ua.length < n) ↔ ∀ i < n, (List.lookup i ua).isSome = true := by
  have hlen : (ua.map Prod.fst).length = ua.length := List.length_map _ _
  have hsub : (ua.map Prod.fst).toFinset ⊆ Finset.range n := by
    intro x hx
    rw [List.mem_toFinset] at hx
    exact Finset.mem_range.mpr (hrange x hx)
  have hcard : (ua.map Prod.fst).toFinset.card = ua.length := by
    rw [List.toFinset_card_of_nodup hnodup, hlen]
  constructor
  · intro hge i hi
    have hn : n ≤ ua.length := Nat.le_of_not_lt hge
    have heq : (ua.map Prod.fst).toFinset = Finset.range n := by
      apply Finset.eq_of_subset_of_card_le hsub
      rw [hcard, Finset.card_range]
      exact hn
    have hx : i ∈ (ua.map Prod.fst).toFinset := by
      rw [heq]
      exact Finset.mem_range.mpr hi
    rw [List.mem_toFinset] at hx
    exact (lookup_isSome_iff_mem i ua).mpr hx
  · intro hall hlt
    have hne : (ua.map Prod.fst).toFinset ≠ Finset.range n := by
      intro heq
      rw [heq, Finset.card_range] at hcard
      omega
    obtain ⟨x, hxr, hxn⟩ := Finset.exists_of_ssubset (hsub.ssubset_of_ne hne)
    have hx := hall x (Finset.mem_range.mp hxr)
    rw [lookup_isSome_iff_mem] at hx
    exact hxn (List.mem_toFinset.mpr hx)

/-- C6: under the app invariant that answer keys are distinct question
indices in range, the submit transition warns and leaves the session
untouched exactly when some question is unanswered, and on acceptance sets
`quiz_submitted` and records `total_time = now - start_time`, leaving the
quiz and answers unchanged. -/
theorem submit_transition_correct (s : Session) (now : ℚ)
    (hnodup : (s.user_answers.map Prod.fst).Nodup)
    (hrange : ∀ k ∈ s.user_answers.map Prod.fst, k < s.questions.length) :
    ((submitQuiz s now).2 = true
        ↔ ¬ ∀ i < s.questions.length, (List.lookup i s.user_answers).isSome = true)
      ∧ ((submitQuiz s now).2 = true → (submitQuiz s now).1 = s)
      ∧ ((∀ i < s.questions.length, (List.lookup i s.user_answers).isSome = true) →
          (submitQuiz s now).1.quiz_submitted = true
            ∧ (submitQuiz s now).1.total_time = some (now - s.start_time)
            ∧ (submitQuiz s now).1.questions = s.questions
            ∧ (submitQuiz s now).1.user_answers = s.user_answers) := by
  have hiff := answers_ge_iff_all_answered s.user_answers s.questions.length hnodup hrange
  by_cases hlt : s.user_answers.length < s.questions.length
  · have hnot : ¬ ∀ i < s.questions.length, (List.lookup i s.user_answers).isSome = true :=
      fun hall => (hiff.mpr hall) hlt
    have h2 : (submitQuiz s now).2 = true := by simp [submitQuiz, hlt]
    refine ⟨iff_of_true h2 hnot, fun _ => by simp [submitQuiz, hlt], ?_⟩
    intro hall
    exact absurd hall hnot
  · have hall := hiff.mp hlt
    have h2 : (submitQuiz s now).2 = false := by simp [submitQuiz, hlt]
    refine ⟨iff_of_false (by simp [h2]) (not_not_intro hall), ?_, ?_⟩
    · intro h
      rw [h2] at h
      exact absurd h (by simp)
    · intro _
      refine ⟨?_, ?_, ?_, ?_⟩ <;> simp [submitQuiz, hlt]

/-- A one-question session with its single question answered, used to
instantiate the session-level theorems. -/
def sampleSession : Session :=
  Session.mk
    [Question.mk "What is 2 + 2?" ["A) 4", "B) 5", "C) 6", "D) 7"] "A"
      (some "2 + 2 = 4")]
    [(0, "A")] false 0 none

/-- Witness for `submit_transition_correct` at `sampleSession` and
`now = 30`. -/
theorem submit_transition_correct_witness :
    ((submitQuiz sampleSession 30).2 = true
        ↔ ¬ ∀ i < sampleSession.questions.length,
            (List.lookup i sampleSession.user_answers).isSome = true)
      ∧ ((submitQuiz sampleSession 30).2 = true
          → (submitQuiz sampleSession 30).1 = sampleSession)
      ∧ ((∀ i < sampleSession.questions.length,
            (List.lookup i sampleSession.user_answers).isSome = true) →
          (submitQuiz sampleSession 30).1.quiz_submitted = true
            ∧ (submitQuiz sampleSession 30).1.total_time
                = some (30 - sampleSession.start_time)
            ∧ (submitQuiz sampleSession 30).1.questions = sampleSession.questions
            ∧ (submitQuiz sampleSession 30).1.user_answers
                = sampleSession.user_answers) :=
  submit_transition_correct sampleSession 30 (by decide) (by decide)

theorem gradeQuestions_fst_eq_countP (i : Nat) (qs : List Question)
    (ans : List (Nat × String)) :
    (gradeQuestions i qs ans).1
      = ((List.range' i qs.length).zip qs).countP
          (fun p => List.lookup p.1 ans == some p.2.correct_answer) := by
  induction qs generalizing i with
  | nil => simp [gradeQuestions]
  | cons q qs ih =>
    simp only [gradeQuestions, List.length_cons, List.range'_succ,
      List.zip_cons_cons, List.countP_cons]
    by_cases h : List.lookup i ans = some q.correct_answer
    · simp [h, ih, Nat.add_comm]
    · simp [h, ih]

/-- C7: for a submitted session, `correct_answers` is the number of question
indices whose recorded answer string equals (case-sensitively, `String`
equality) that question's `correct_answer`, and the score is
`100 * correct / total` where `total` is the actual length of the question
list. -/
theorem grading_and_score_correct (qs : List Question) (ans : List (Nat × String))
    (h : 0 < qs.length) :
    (gradeQuestions 0 qs ans).1
      = (((List.range qs.length).zip qs).filter
          (fun p => List.lookup p.1 ans == some p.2.correct_answer)).length
      ∧ score_percentage (gradeQuestions 0 qs ans).1 qs.length
        = some (100 * ((gradeQuestions 0 qs ans).1 : ℚ) / (qs.length : ℚ)) := by
  constructor
  · rw [List.range_eq_range', gradeQuestions_fst_eq_countP,
      List.countP_eq_length_filter]
  · have hq : ((qs.length : ℚ)) ≠ 0 :=
      Nat.cast_ne_zero.mpr (Nat.pos_iff_ne_zero.mp h)
    unfold score_percentage
    rw [if_neg hq]
    congr 1
    rw [div_mul_eq_mul_div, mul_comm]

/-- The spec scenario quiz: three questions with correct answers A, B, D. -/
def sampleQuiz3 : List Question :=
  [Question.mk "Q1" ["A) a", "B) b", "C) c", "D) d"] "A" none,
   Question.mk "Q2" ["A) a", "B) b", "C) c", "D) d"] "B" none,
   Question.mk "Q3" ["A) a", "B) b", "C) c", "D) d"] "D" none]

/-- The spec scenario answers: the user picked A, B, C. -/
def sampleAnswers3 : List (Nat × String) := [(0, "A"), (1, "B"), (2, "C")]

/-- Witness for `grading_and_score_correct` on the spec scenario
(answers A, B, C against correct answers A, B, D). -/
theorem grading_and_score_correct_witness :
    0 < sampleQuiz3.length
      ∧ ((gradeQuestions 0 sampleQuiz3 sampleAnswers3).1
          = (((List.range sampleQuiz3.length).zip sampleQuiz3).filter
              (fun p => List.lookup p.1 sampleAnswers3 == some p.2.correct_answer)).length
        ∧ score_percentage (gradeQuestions 0 sampleQuiz3 sampleAnswers3).1
            sampleQuiz3.length
          = some (100 * ((gradeQuestions 0 sampleQuiz3 sampleAnswers3).1 : ℚ)
              / (sampleQuiz3.length : ℚ))) :=
  ⟨by decide, grading_and_score_correct sampleQuiz3 sampleAnswers3 (by decide)⟩

def containsSubList (pat : Chars) : Chars → Bool
  | [] => pat.isPrefixOf []
  | c :: r => pat.isPrefixOf (c :: r) || containsSubList pat r

/-- `strContains s pat`: `pat` occurs verbatim as a contiguous substring of
`s` (Python `pat in s`). -/
def strContains (s pat : String) : Bool := containsSubList pat.data s.data

theorem isPrefixOf_append_self (pat rest : Chars) :
    pat.isPrefixOf (pat ++ rest) = true := by
  induction pat with
  | nil => simp [List.isPrefixOf]
  | cons c cs ih => simp [List.isPrefixOf, ih]

theorem containsSubList_of_isPrefixOf {pat s : Chars}
    (h : pat.isPrefixOf s = true) : containsSubList pat s = true := by
  cases s <;> simp [containsSubList, h]

theorem containsSubList_append_left (pat a : Chars) {b : Chars}
    (h : containsSubList pat b = true) : containsSubList pat (a ++ b) = true := by
  induction a with
  | nil => simpa using h
  | cons x xs ih => simp [containsSubList, ih]

theorem containsSubList_self_append (pat rest : Chars) :
    containsSubList pat (pat ++ rest) = true :=
  containsSubList_of_isPrefixOf (isPrefixOf_append_self pat rest)

/-- C8 counterexample: for the spec's own scenario (topic Photosynthesis,
3 questions, easy), the built prompt does not contain the claim's quoted
easy guidance phrase verbatim: the source writes "basic definitions,
simple concepts, and straightforward applications" (with "and"), and the
per-tier description inserted for easy is a different sentence
altogether. -/
theorem prompt_lacks_claimed_easy_phrase :
    strContains (build_prompt "Photosynthesis" 3 "easy")
      "basic definitions, simple concepts, straightforward applications" = false := by
  decide

/-- C8 (amended): for every topic, count and difficulty among
easy/medium/hard, the prompt states the topic, the exact question count and
the upper-cased difficulty tier, inserts that tier's
`get_difficulty_description` sentence, and always contains all three
static guidance lines with the source's wording ("... basic definitions,
simple concepts, and straightforward applications." and so on). -/
theorem prompt_states_spec_and_difficulty (topic : String) (n : Nat) (d : String)
    (_hd : d = "easy" ∨ d = "medium" ∨ d = "hard") :
    strContains (build_prompt topic n d) topic = true
      ∧ strContains (build_prompt topic n d) (toString n) = true
      ∧ strContains (build_prompt topic n d) (pyUpper d) = true
      ∧ strContains (build_prompt topic n d) (get_difficulty_description d) = true
      ∧ strContains (build_prompt topic n d)
          "For EASY questions: Focus on basic definitions, simple concepts, and straightforward applications." = true
      ∧ strContains (build_prompt topic n d)
          "For MEDIUM questions: Include scenario-based problems, relationships between concepts, and moderate complexity." = true
      ∧ strContains (build_prompt topic n d)
          "For HARD questions: Incorporate complex scenarios, advanced applications, and questions requiring synthesis of multiple concepts." = true := by
  simp only [strContains, build_prompt, String.data_append, List.append_assoc]
  refine ⟨?_, ?_, ?_, ?_, ?_, ?_, ?_⟩
  · exact containsSubList_append_left _ _ (containsSubList_append_left _ _
      (containsSubList_append_left _ _ (containsSubList_self_append _ _)))
  · exact containsSubList_append_left _ _ (containsSubList_self_append _ _)
  · exact containsSubList_append_left _ _ (containsSubList_append_left _ _
      (containsSubList_append_left _ _ (containsSubList_append_left _ _
        (containsSubList_append_left _ _ (containsSubList_self_append _ _)))))
  · exact containsSubList_append_left _ _ (containsSubList_append_left _ _
      (containsSubList_append_left _ _ (containsSubList_append_left _ _
        (containsSubList_append_left _ _ (containsSubList_append_left _ _
          (containsSubList_append_left _ _ (containsSubList_self_append _ _)))))))
  · refine containsSubList_append_left _ _ (containsSubList_append_left _ _
      (containsSubList_append_left _ _ (containsSubList_append_left _ _
        (containsSubList_append_left _ _ (containsSubList_append_left _ _
          (containsSubList_append_left _ _ (containsSubList_append_left _ _ ?_)))))))
    decide
  · refine containsSubList_append_left _ _ (containsSubList_append_left _ _
      (containsSubList_append_left _ _ (containsSubList_append_left _ _
        (containsSubList_append_left _ _ (containsSubList_append_left _ _
          (containsSubList_append_left _ _ (containsSubList_append_left _ _ ?_)))))))
    decide
  · refine containsSubList_append_left _ _ (containsSubList_append_left _ _
      (containsSubList_append_left _ _ (containsSubList_append_left _ _
        (containsSubList_append_left _ _ (containsSubList_append_left _ _
          (containsSubList_append_left _ _ (containsSubList_append_left _ _ ?_)))))))
    decide

/-- Witness for `prompt_states_spec_and_difficulty` at the spec scenario
(topic Photosynthesis, 3 questions, easy). -/
theorem prompt_states_spec_and_difficulty_witness :
    strContains (build_prompt "Photosynthesis" 3 "easy") "Photosynthesis" = true
      ∧ strContains (build_prompt "Photosynthesis" 3 "easy") (toString 3) = true
      ∧ strContains (build_prompt "Photosynthesis" 3 "easy")
          (pyUpper "easy") = true
      ∧ strContains (build_prompt "Photosynthesis" 3 "easy")
          (get_difficulty_description "easy") = true
      ∧ strContains (build_prompt "Photosynthesis" 3 "easy")
          "For EASY questions: Focus on basic definitions, simple concepts, and straightforward applications." = true
      ∧ strContains (build_prompt "Photosynthesis" 3 "easy")
          "For MEDIUM questions: Include scenario-based problems, relationships between concepts, and moderate complexity." = true
      ∧ strContains (build_prompt "Photosynthesis" 3 "easy")
          "For HARD questions: Incorporate complex scenarios, advanced applications, and questions requiring synthesis of multiple concepts." = true :=
  prompt_states_spec_and_difficulty "Photosynthesis" 3 "easy" (Or.inl rfl)

